import Mathlib

/-!
Verification of the WorldBackup plugin
(src/endstone_world_backup/world_backup_plugin.py) against its design
specification.  The Python source is shallowly embedded below: pure string
manipulation becomes Lean functions on String / List Char, the stateful
backup task becomes an explicit function from an environment (the outcomes
of the filesystem interactions) to a result record, and the concurrency of
the trigger path is modelled as a small interleaving semantics over atomic
steps.  Machine integers are modelled as Nat / Int (Python integers are
unbounded, so no wrap-around is involved).
-/

namespace WorldBackup

/-! ### Character-list primitives

Python string comparison and the startswith / endswith predicates operate
on sequences of code points.  A Lean String is a list of Chars (unicode
scalar values), so the embeddings below work on String.data with code
points compared through Char.toNat, exactly as Python compares strings. -/

/-- Does the character list in the first argument begin with the second
argument?  Embeds Python str.startswith restricted to the code-point
sequence. -/
def starts_with_cl : List Char → List Char → Bool
  | _, [] => true
  | [], _ :: _ => false
  | c :: cs, p :: ps => c == p && starts_with_cl cs ps

/-- Does the character list in the first argument end with the second
argument?  Embeds Python str.endswith. -/
def ends_with_cl (s p : List Char) : Bool :=
  starts_with_cl s.reverse p.reverse

/-- Python s.startswith(p). -/
def str_startswith (s p : String) : Bool := starts_with_cl s.data p.data

/-- Python s.endswith(p). -/
def str_endswith (s p : String) : Bool := ends_with_cl s.data p.data

/-- Lexicographic code-point order on character lists: the Boolean test
behind Python string comparison (s1 <= s2), used by list.sort() on
strings. -/
def le_cl : List Char → List Char → Bool
  | [], _ => true
  | _ :: _, [] => false
  | a :: as, b :: bs =>
    if a.toNat < b.toNat then true
    else if b.toNat < a.toNat then false
    else le_cl as bs

/-- Python string order s1 <= s2 (code-point lexicographic). -/
def str_le (a b : String) : Bool := le_cl a.data b.data

/-- Python string order as a relation, for use with the sorting functions
of the library. -/
def str_le_rel (a b : String) : Prop := str_le a b = true

instance : DecidableRel str_le_rel :=
  fun a b => inferInstanceAs (Decidable (str_le a b = true))

/-! ### Retention Manager: _manage_backups (source lines 238-266)

The deleted-files list returned below is the list of file names the loop at
lines 256-264 calls os.remove on, in iteration order (oldest first).
Per-file removal errors are only logged by the source and do not stop the
loop, so the set of names selected for deletion is exactly this list. -/

/-- Archive-name filter of source line 248:
f.endswith('.zip') and f.startswith('world_backup_'). -/
def is_backup_archive_name (f : String) : Bool :=
  str_endswith f ".zip" && str_startswith f "world_backup_"

/-- The value found under the "backup-management" / "max-backups" config
key: absent, an integer, or some non-integer value (source line 240 reads
it with .get, defaulting to 10 when absent; line 242 rejects non-integer
values). -/
inductive ConfVal where
  | absent
  | int_val (n : Int)
  | non_int
deriving DecidableEq

/-- The archive entries of the backup directory listing, sorted ascending
by name (source lines 248-251).  list.sort on Python strings is a stable
sort under the total code-point order str_le_rel, and a stable insertion
sort produces the identical list because elements that compare equal are
equal strings. -/
def sorted_archives (entries : List String) : List String :=
  List.insertionSort str_le_rel (entries.filter is_backup_archive_name)

/-- Body of _manage_backups once max_backups is known to be an integer m
(source lines 242-259): return without deleting if m <= 0; otherwise
filter the directory listing by is_backup_archive_name (line 248), sort
ascending by name (line 251), and when the count exceeds m select the
first count - m entries for deletion, oldest first (lines 253-256). -/
def prune_with (m : Int) (entries : List String) : List String :=
  if m ≤ 0 then []
  else if (sorted_archives entries).length > m.toNat then
    (sorted_archives entries).take ((sorted_archives entries).length - m.toNat)
  else []

/-- _manage_backups (source lines 238-259): resolve
max_backups = config.get("max-backups", 10) (line 240, default 10 when the
key is absent), return without deleting anything when the value is not an
integer (line 242), and otherwise prune with the integer limit.  The
result is the list of file names selected for deletion, oldest first. -/
def manage_backups (v : ConfVal) (entries : List String) : List String :=
  match v with
  | .non_int => []
  | .absent => prune_with 10 entries
  | .int_val n => prune_with n entries

/-! ### Archiver: the zip-writing loop of _backup_task (source lines 178-200)

The loop walks the world directory a second time and writes each file it
finds into the zip.  A file that was deleted between the counting walk and
the write raises FileNotFoundError, which is caught per file (lines
189-191): files_skipped is incremented, a warning is logged, and the loop
continues.  files_processed is incremented for every visited file (line
193) and the integer progress percentage is reported whenever it reaches
last_reported_progress + 10 (lines 194-200). -/

/-- Fate of one file visited by the writing walk: still present when
zipf.write runs, or vanished (zipf.write raises FileNotFoundError). -/
inductive FileFate where
  | present
  | vanished
deriving DecidableEq

/-- 1 for a vanished file, 0 otherwise: the increment applied to
files_skipped (and the number of warnings logged) for that file. -/
def skip_inc : FileFate → Nat
  | .present => 0
  | .vanished => 1

/-- Number of vanished files in a walk. -/
def count_vanished (w : List FileFate) : Nat :=
  (w.filter (fun f => f == FileFate.vanished)).length

/-- Mutable state of the writing loop: the counters initialised at source
lines 178-180, plus the ordered list of progress percentages passed to the
notification broadcast at line 200. -/
structure WriteState where
  files_skipped : Nat
  files_processed : Nat
  warnings_logged : Nat
  last_reported_progress : Int
  reports : List Nat
deriving DecidableEq

/-- Loop state before the first file: files_skipped = 0,
files_processed = 0, last_reported_progress = -1, nothing reported. -/
def init_write : WriteState :=
  { files_skipped := 0, files_processed := 0, warnings_logged := 0,
    last_reported_progress := -1, reports := [] }

/-- Source line 194: progress = int((files_processed / total_files) * 100).
For the nonnegative operands involved this truncation equals the integer
floor files_processed * 100 / total_files.  (The source computes it via
binary floating-point division, whose rounding can lower the truncated
percentage by one for some operand pairs; the properties proved below are
stated so that they are insensitive to that perturbation.) -/
def progress_of (total_files files_processed : Nat) : Nat :=
  files_processed * 100 / total_files

/-- One iteration of the inner loop of source lines 184-200 for a single
visited file: update the skip counter (lines 188-191), increment
files_processed (line 193), recompute progress (line 194), and report
exactly when progress >= last_reported_progress + 10 (lines 197-200). -/
def process_file (total_files : Nat) (st : WriteState) (f : FileFate) : WriteState :=
  if (progress_of total_files (st.files_processed + 1) : Int) ≥
      st.last_reported_progress + 10 then
    { files_skipped := st.files_skipped + skip_inc f,
      files_processed := st.files_processed + 1,
      warnings_logged := st.warnings_logged + skip_inc f,
      last_reported_progress := (progress_of total_files (st.files_processed + 1) : Int),
      reports := st.reports ++ [progress_of total_files (st.files_processed + 1)] }
  else
    { files_skipped := st.files_skipped + skip_inc f,
      files_processed := st.files_processed + 1,
      warnings_logged := st.warnings_logged + skip_inc f,
      last_reported_progress := st.last_reported_progress,
      reports := st.reports }

/-- The whole writing walk (source lines 183-200): fold process_file over
the files the second os.walk visits, in visit order. -/
def zip_write_loop (total_files : Nat) (walk : List FileFate) (st : WriteState) :
    WriteState :=
  walk.foldl (process_file total_files) st

/-! ### Backup Coordinator: _backup_task and _execute_backup
(source lines 114-223) -/

/-- Destination archive name of source line 164:
f"world_backup_\x7btimestamp\x7d.zip". -/
def backup_file_name (ts : String) : String :=
  "world_backup_" ++ ts ++ ".zip"

/-- Classified outcome of one run of _backup_task, following the branch a
run takes through source lines 125-216. -/
inductive TaskOutcome where
  | success
  | world_dir_missing
  | backup_dir_denied
  | no_files_found
  | unhandled_error
deriving DecidableEq

/-- Environment of one _backup_task run: the outcome of each filesystem
interaction the task performs, in the order the source performs them. -/
structure TaskEnv where
  /-- An unexpected exception raised by a step of the try block before the
  directory check (e.g. the sender.server.level access at line 134);
  caught by the except clause at lines 211-214. -/
  raise_unexpected : Bool
  /-- Result of os.path.isdir(world_path) at line 138. -/
  world_dir_exists : Bool
  /-- os.makedirs at line 156 raises PermissionError (lines 157-161). -/
  mkdir_denied : Bool
  /-- The timestamp string of line 163. -/
  timestamp : String
  /-- total_files computed by the counting walk of lines 167-170. -/
  total_files : Nat
  /-- A non-FileNotFoundError I/O error raised while writing the archive
  container (disk full, permission denied, ...); it escapes the with-block
  of line 182 and is caught by the except clause at lines 211-214, leaving
  the incomplete destination file on disk. -/
  zip_fatal : Bool
  /-- The files visited by the writing walk of lines 183-184, with the
  fate each one has when zipf.write runs at line 188. -/
  walk2 : List FileFate
deriving DecidableEq

/-- Observable result of the try/except part of one _backup_task run. -/
structure TryResult where
  outcome : TaskOutcome
  /-- Name of the destination file created on disk by opening the
  zipfile.ZipFile at line 182, whether or not it was completed. -/
  file_on_disk : Option String
  /-- True when the with-block of line 182 closed the archive normally. -/
  archive_complete : Bool
  /-- True when _manage_backups was invoked (line 209). -/
  prune_invoked : Bool
  /-- Final state of the writing loop (all counters zero when the run
  never reached the loop). -/
  final : WriteState
deriving DecidableEq

/-- Result of a completed _backup_task run, including the flag state the
finally clause leaves behind. -/
structure TaskResult where
  outcome : TaskOutcome
  file_on_disk : Option String
  archive_complete : Bool
  prune_invoked : Bool
  final : WriteState
  /-- Value of self.is_backing_up after the finally clause of lines
  215-216 has run. -/
  is_backing_up_after : Bool
deriving DecidableEq

/-- The try block of _backup_task (source lines 127-214), with the except
clause of lines 211-214 folded in: every branch that raises a
non-FileNotFoundError exception ends in the unhandled_error outcome (the
handler logs the traceback and broadcasts a generic failure message).
The branches follow the source order: world-directory check (lines
138-143), backup-directory creation (lines 155-161), file counting and
the empty-source early return (lines 167-176), then the archive write
(lines 182-200) followed by _manage_backups (line 209). -/
def backup_task_try (env : TaskEnv) : TryResult :=
  if env.raise_unexpected then
    { outcome := .unhandled_error, file_on_disk := none, archive_complete := false,
      prune_invoked := false, final := init_write }
  else if !env.world_dir_exists then
    { outcome := .world_dir_missing, file_on_disk := none, archive_complete := false,
      prune_invoked := false, final := init_write }
  else if env.mkdir_denied then
    { outcome := .backup_dir_denied, file_on_disk := none, archive_complete := false,
      prune_invoked := false, final := init_write }
  else if env.total_files = 0 then
    { outcome := .no_files_found, file_on_disk := none, archive_complete := false,
      prune_invoked := false, final := init_write }
  else if env.zip_fatal then
    { outcome := .unhandled_error,
      file_on_disk := some (backup_file_name env.timestamp),
      archive_complete := false, prune_invoked := false, final := init_write }
  else
    { outcome := .success,
      file_on_disk := some (backup_file_name env.timestamp),
      archive_complete := true, prune_invoked := true,
      final := zip_write_loop env.total_files env.walk2 init_write }

/-- One _backup_task run (source lines 125-216): the try/except body
followed by the finally clause of lines 215-216, which runs on every exit
path and clears self.is_backing_up. -/
def backup_task (env : TaskEnv) : TaskResult :=
  let r := backup_task_try env
  { outcome := r.outcome, file_on_disk := r.file_on_disk,
    archive_complete := r.archive_complete, prune_invoked := r.prune_invoked,
    final := r.final,
    is_backing_up_after := false }

/-- files_written of an ArchiveResult: the files actually stored in the
archive, i.e. the processed files whose zipf.write did not raise. -/
def files_written (st : WriteState) : Nat :=
  st.files_processed - st.files_skipped

/-- Notification emitted by the already-in-progress branch of
_execute_backup (source lines 116-122). -/
inductive RejectNotice where
  | logged_warning
  | sent_to_sender
deriving DecidableEq

/-- Observable result of one _execute_backup call. -/
structure ExecResult where
  /-- The Boolean the call returns. -/
  returned : Bool
  /-- True when the call reached lines 220-221 and spawned the backup
  worker thread (the only place archiving, directory creation and pruning
  happen). -/
  backup_thread_spawned : Bool
  /-- The notification emitted when the call is rejected, none
  otherwise. -/
  reject_notice : Option RejectNotice
deriving DecidableEq

/-- _execute_backup (source lines 114-223) as a function of the value of
self.is_backing_up it reads at line 115: if the flag is set, log the
already-in-progress message for an automatic run or send it to the sender
for a manual run and return False at once (lines 115-123); otherwise
spawn the backup thread and return True (lines 218-223).  The body
contains no wait, retry or queueing construct: the rejected call performs
nothing else. -/
def execute_backup (is_backing_up : Bool) (is_auto : Bool) : ExecResult :=
  if is_backing_up then
    { returned := false, backup_thread_spawned := false,
      reject_notice :=
        some (if is_auto then RejectNotice.logged_warning
              else RejectNotice.sent_to_sender) }
  else
    { returned := true, backup_thread_spawned := true, reject_notice := none }

/-! ### Interleaving model of two concurrent triggers

The flag self.is_backing_up is read by _execute_backup at source line 115
on the calling thread, but it is only set at line 126 by the worker thread
spawned at lines 220-221.  The read and the write are therefore separate
atomic actions of different threads, and any interleaving of two trigger
calls is possible.  Each trigger is modelled as the two-action program
[read-and-branch at line 115, worker executes line 126]. -/

/-- Phase of one trigger: about to run the line-115 check; returned False
after seeing the flag set; passed the check and returned True with the
worker thread spawned but not yet scheduled; or the worker thread has run
line 126 and the backup job is executing. -/
inductive TrigPhase where
  | at_check
  | rejected
  | spawned
  | backing_up
deriving DecidableEq

/-- One atomic action of a trigger, given the current flag value: the
line-115 test, or the worker's line-126 assignment.  Finished triggers do
nothing. -/
def trig_step (flag : Bool) : TrigPhase → Bool × TrigPhase
  | .at_check => if flag then (flag, .rejected) else (flag, .spawned)
  | .spawned => (true, .backing_up)
  | p => (flag, p)

/-- State of the shared flag and two concurrently running triggers. -/
structure TwoTriggers where
  flag : Bool
  t1 : TrigPhase
  t2 : TrigPhase
deriving DecidableEq

/-- Let the scheduler run one atomic action of trigger 1 (who = true) or
trigger 2 (who = false). -/
def sys_step (s : TwoTriggers) (who : Bool) : TwoTriggers :=
  if who then
    let r := trig_step s.flag s.t1
    { flag := r.1, t1 := r.2, t2 := s.t2 }
  else
    let r := trig_step s.flag s.t2
    { flag := r.1, t1 := s.t1, t2 := r.2 }

/-- Run a schedule (list of scheduler choices) from the quiescent state:
flag clear, both triggers about to execute the line-115 check. -/
def run_triggers (sched : List Bool) : TwoTriggers :=
  sched.foldl sys_step { flag := false, t1 := .at_check, t2 := .at_check }

/-! ### Concrete inputs used by counterexamples and witnesses -/

/-- A backup directory listing with eleven archives, oldest first
world_backup_01.zip, given in scrambled listing order. -/
def eleven_archives : List String :=
  ["world_backup_03.zip", "world_backup_01.zip", "world_backup_11.zip",
   "world_backup_02.zip", "world_backup_04.zip", "world_backup_05.zip",
   "world_backup_06.zip", "world_backup_07.zip", "world_backup_08.zip",
   "world_backup_09.zip", "world_backup_10.zip"]

/-- A backup directory listing with fifteen archives and one non-archive
file, in scrambled listing order. -/
def sixteen_entries : List String :=
  ["world_backup_15.zip", "world_backup_03.zip", "world_backup_01.zip",
   "world_backup_11.zip", "world_backup_02.zip", "notes.txt",
   "world_backup_04.zip", "world_backup_05.zip", "world_backup_06.zip",
   "world_backup_07.zip", "world_backup_08.zip", "world_backup_09.zip",
   "world_backup_10.zip", "world_backup_12.zip", "world_backup_13.zip",
   "world_backup_14.zip"]

/-- A run in which the archive write fails fatally partway through. -/
def fatal_env : TaskEnv :=
  { raise_unexpected := false, world_dir_exists := true, mkdir_denied := false,
    timestamp := "2000-01-01_00-00-00", total_files := 3, zip_fatal := true,
    walk2 := [] }

/-- A run of four enumerated files in which the second file vanishes
between enumeration and write. -/
def skip_env : TaskEnv :=
  { raise_unexpected := false, world_dir_exists := true, mkdir_denied := false,
    timestamp := "2025-01-01_00-00-00", total_files := 4, zip_fatal := false,
    walk2 := [FileFate.present, FileFate.vanished, FileFate.present,
              FileFate.present] }

/-- A run that counted one file but whose writing walk finds two: a file
became visible between the two walks. -/
def race_env : TaskEnv :=
  { raise_unexpected := false, world_dir_exists := true, mkdir_denied := false,
    timestamp := "2025-01-02_00-00-00", total_files := 1, zip_fatal := false,
    walk2 := [FileFate.present, FileFate.present] }

/-- An empty-source run: the world directory exists but the counting walk
finds zero files. -/
def empty_env : TaskEnv :=
  { raise_unexpected := false, world_dir_exists := true, mkdir_denied := false,
    timestamp := "2025-01-03_00-00-00", total_files := 0, zip_fatal := false,
    walk2 := [] }

/-- Specification of the pruning pass for a positive integer limit m,
stated against the embedded _manage_backups: every deleted entry matches
the archive naming convention and came from the listing; nothing is
deleted when the archive count is within the limit; and when the count
exceeds the limit the deleted entries are exactly the count - m
lexicographically smallest archive names, in ascending (oldest-first)
order, every deleted name preceding every kept name, and deleted plus kept
being exactly the archive entries of the listing. -/
def prune_spec (entries : List String) (m : Int) : Prop :=
  (∀ f ∈ manage_backups (ConfVal.int_val m) entries,
      is_backup_archive_name f = true) ∧
  (∀ f ∈ manage_backups (ConfVal.int_val m) entries, f ∈ entries) ∧
  ((entries.filter is_backup_archive_name).length ≤ m.toNat →
      manage_backups (ConfVal.int_val m) entries = []) ∧
  (m.toNat < (entries.filter is_backup_archive_name).length →
      manage_backups (ConfVal.int_val m) entries
          = (sorted_archives entries).take
              ((entries.filter is_backup_archive_name).length - m.toNat) ∧
      (manage_backups (ConfVal.int_val m) entries).length
          = (entries.filter is_backup_archive_name).length - m.toNat ∧
      List.Pairwise str_le_rel (manage_backups (ConfVal.int_val m) entries) ∧
      (∀ d ∈ manage_backups (ConfVal.int_val m) entries,
        ∀ r ∈ (sorted_archives entries).drop
            ((entries.filter is_backup_archive_name).length - m.toNat),
          str_le_rel d r) ∧
      (manage_backups (ConfVal.int_val m) entries ++
          (sorted_archives entries).drop
            ((entries.filter is_backup_archive_name).length - m.toNat)).Perm
        (entries.filter is_backup_archive_name))

/-! ### Helper lemmas -/

theorem starts_with_cl_append (p t : List Char) :
    starts_with_cl (p ++ t) p = true := by
  induction p with
  | nil => cases t <;> rfl
  | cons c cs ih => simp [starts_with_cl, ih]

theorem ends_with_cl_append (t p : List Char) :
    ends_with_cl (t ++ p) p = true := by
  unfold ends_with_cl
  rw [List.reverse_append]
  exact starts_with_cl_append p.reverse t.reverse

theorem le_cl_trans : ∀ a b c : List Char,
    le_cl a b = true → le_cl b c = true → le_cl a c = true := by
  intro a
  induction a with
  | nil => intro b c _ _; rfl
  | cons x xs ih =>
    intro b c h1 h2
    cases b with
    | nil => simp [le_cl] at h1
    | cons y ys =>
      cases c with
      | nil => simp [le_cl] at h2
      | cons z zs =>
        simp only [le_cl] at h1 h2 ⊢
        split_ifs at h1 h2 ⊢ <;>
          first
            | rfl
            | exact absurd h1 (by decide)
            | exact absurd h2 (by decide)
            | omega
            | exact ih ys zs h1 h2

theorem le_cl_total : ∀ a b : List Char,
    (le_cl a b || le_cl b a) = true := by
  intro a
  induction a with
  | nil => intro b; rfl
  | cons x xs ih =>
    intro b
    cases b with
    | nil => rfl
    | cons y ys =>
      simp only [le_cl]
      split_ifs <;> simpa using ih ys

theorem str_le_rel_trans : ∀ a b c : String,
    str_le_rel a b → str_le_rel b c → str_le_rel a c :=
  fun a b c h1 h2 => le_cl_trans a.data b.data c.data h1 h2

theorem str_le_rel_total : ∀ a b : String, str_le_rel a b ∨ str_le_rel b a := by
  intro a b
  have h := le_cl_total a.data b.data
  rcases Bool.or_eq_true_iff.mp h with h | h
  · exact Or.inl h
  · exact Or.inr h

theorem backup_file_name_matches (ts : String) :
    is_backup_archive_name (backup_file_name ts) = true := by
  have hd : (backup_file_name ts).data
      = ("world_backup_".data ++ ts.data) ++ ".zip".data := by
    simp [backup_file_name]
  unfold is_backup_archive_name str_endswith str_startswith
  rw [hd, Bool.and_eq_true]
  refine ⟨ends_with_cl_append _ _, ?_⟩
  rw [List.append_assoc]
  exact starts_with_cl_append _ _

theorem process_file_files_processed (t : Nat) (st : WriteState) (f : FileFate) :
    (process_file t st f).files_processed = st.files_processed + 1 := by
  unfold process_file; split <;> rfl

theorem process_file_files_skipped (t : Nat) (st : WriteState) (f : FileFate) :
    (process_file t st f).files_skipped = st.files_skipped + skip_inc f := by
  unfold process_file; split <;> rfl

theorem process_file_warnings (t : Nat) (st : WriteState) (f : FileFate) :
    (process_file t st f).warnings_logged = st.warnings_logged + skip_inc f := by
  unfold process_file; split <;> rfl

theorem count_vanished_cons (f : FileFate) (w : List FileFate) :
    count_vanished (f :: w) = skip_inc f + count_vanished w := by
  cases f <;> simp [count_vanished, skip_inc, List.filter_cons] <;> omega

theorem zip_write_loop_processed (t : Nat) :
    ∀ (w : List FileFate) (st : WriteState),
      (zip_write_loop t w st).files_processed = st.files_processed + w.length := by
  intro w
  induction w with
  | nil => intro st; rfl
  | cons f w ih =>
    intro st
    show (zip_write_loop t w (process_file t st f)).files_processed = _
    rw [ih, process_file_files_processed]
    simp [Nat.add_assoc, Nat.add_comm 1 w.length]

theorem zip_write_loop_skipped (t : Nat) :
    ∀ (w : List FileFate) (st : WriteState),
      (zip_write_loop t w st).files_skipped = st.files_skipped + count_vanished w := by
  intro w
  induction w with
  | nil => intro st; simp [zip_write_loop, count_vanished]
  | cons f w ih =>
    intro st
    show (zip_write_loop t w (process_file t st f)).files_skipped = _
    rw [ih, process_file_files_skipped, count_vanished_cons]
    omega

theorem zip_write_loop_warnings (t : Nat) :
    ∀ (w : List FileFate) (st : WriteState),
      (zip_write_loop t w st).warnings_logged =
        st.warnings_logged + count_vanished w := by
  intro w
  induction w with
  | nil => intro st; simp [zip_write_loop, count_vanished]
  | cons f w ih =>
    intro st
    show (zip_write_loop t w (process_file t st f)).warnings_logged = _
    rw [ih, process_file_warnings, count_vanished_cons]
    omega

/-- Reduction of a successful _backup_task run: when no step fails and the
counting walk found files, the try block ends in the success record with
the writing loop's final state. -/
theorem backup_task_success (env : TaskEnv)
    (h1 : env.raise_unexpected = false) (h2 : env.world_dir_exists = true)
    (h3 : env.mkdir_denied = false) (h4 : env.zip_fatal = false)
    (h5 : env.total_files ≠ 0) :
    backup_task env =
      { outcome := .success,
        file_on_disk := some (backup_file_name env.timestamp),
        archive_complete := true, prune_invoked := true,
        final := zip_write_loop env.total_files env.walk2 init_write,
        is_backing_up_after := false } := by
  simp [backup_task, backup_task_try, h1, h2, h3, h4, h5]

/-! ### Claim theorems -/

/-- Claim C1 (refutation at a concrete interleaving): the claim states
that of any concurrent trigger attempts exactly one proceeds, every other
receives the already-in-progress rejection, and the single-flight flag is
acquired with test-and-set atomicity so that no interleaving of two
triggers can start two simultaneous backup jobs.  In the source the flag
is read at line 115 by the calling thread but written at line 126 by the
spawned worker thread, so the schedule in which both triggers execute the
line-115 check before either worker runs line 126 lets BOTH triggers pass
the check, return True, and run two backup jobs concurrently: the code
contradicts its own line-32 comment that the flag is a lock preventing
concurrent backups. -/
theorem wb_c1_both_triggers_proceed :
    (run_triggers [true, false, true, false]).t1 = TrigPhase.backing_up ∧
    (run_triggers [true, false, true, false]).t2 = TrigPhase.backing_up ∧
    (run_triggers [true, false, true, false]).t1 ≠ TrigPhase.rejected ∧
    (run_triggers [true, false, true, false]).t2 ≠ TrigPhase.rejected := by
  decide

/-- Claim C2: after every execution of the backup task, whatever branch
the run takes (success, source directory missing, backup-directory
permission failure, zero files found, or an unexpected exception), the
finally clause leaves is_backing_up false, and a subsequent
_execute_backup call reading that flag proceeds: it is never rejected by a
stale lock. -/
theorem wb_c2_lock_always_released (env : TaskEnv) (is_auto : Bool) :
    (backup_task env).is_backing_up_after = false ∧
    (execute_backup (backup_task env).is_backing_up_after is_auto).returned = true ∧
    (execute_backup (backup_task env).is_backing_up_after is_auto).backup_thread_spawned
      = true ∧
    (execute_backup (backup_task env).is_backing_up_after is_auto).reject_notice
      = none := by
  exact ⟨rfl, rfl, rfl, rfl⟩

/-- Claim C3: when the in-progress flag is set at the line-115 read, the
trigger returns False immediately, spawns no backup thread (hence starts
no archiving, directory creation or pruning step, all of which live in the
worker task), and its only effect is the already-in-progress notification:
logged for automatic runs, sent to the sender for manual runs. -/
theorem wb_c3_reject_immediate (is_auto : Bool) :
    (execute_backup true is_auto).returned = false ∧
    (execute_backup true is_auto).backup_thread_spawned = false ∧
    (execute_backup true is_auto).reject_notice =
      some (if is_auto then RejectNotice.logged_warning
            else RejectNotice.sent_to_sender) := by
  exact ⟨rfl, rfl, rfl⟩

set_option maxRecDepth 10000 in
/-- Claim C4 (refutation at a concrete input): the claim states pruning is
a no-op whenever max-backups is absent or nonpositive, but the source line
240 defaults an absent key to 10, so with the key absent and eleven
archives on disk the oldest archive is deleted. -/
theorem wb_c4_absent_key_still_prunes :
    manage_backups ConfVal.absent eleven_archives = ["world_backup_01.zip"] ∧
    manage_backups ConfVal.absent eleven_archives ≠ [] := by
  decide

/-- Claim C4 (amended): pruning is a no-op when the configured max-backups
value is present and nonpositive, or present and not an integer; an
absent value does not disable pruning but defaults the limit to 10. -/
theorem wb_c4_noop_conditions (entries : List String) (n : Int) (hn : n ≤ 0) :
    manage_backups (ConfVal.int_val n) entries = [] ∧
    manage_backups ConfVal.non_int entries = [] ∧
    manage_backups ConfVal.absent entries
      = manage_backups (ConfVal.int_val 10) entries := by
  refine ⟨?_, rfl, rfl⟩
  simp [manage_backups, prune_with, hn]

set_option maxRecDepth 10000 in
/-- Witness for wb_c4_noop_conditions at n = 0 and a concrete listing. -/
theorem wb_c4_noop_conditions_witness :
    (0 : Int) ≤ 0 ∧
    (manage_backups (ConfVal.int_val 0) eleven_archives = [] ∧
     manage_backups ConfVal.non_int eleven_archives = [] ∧
     manage_backups ConfVal.absent eleven_archives
       = manage_backups (ConfVal.int_val 10) eleven_archives) :=
  ⟨by decide, wb_c4_noop_conditions eleven_archives 0 (by decide)⟩

/-- Claim C5: for every directory listing and every positive limit m, the
pruning pass considers exactly the entries named world_backup_*.zip, sorts
them ascending by name, deletes nothing when their count is within m, and
otherwise deletes exactly the count - m lexicographically smallest archive
names, oldest first, every deleted name preceding every kept one; an entry
not matching the naming convention is never deleted. -/
theorem wb_c5_prune_selection (entries : List String) (m : Int) (hm : 0 < m) :
    prune_spec entries m := by
  unfold prune_spec
  haveI : IsTrans String str_le_rel := ⟨str_le_rel_trans⟩
  haveI : IsTotal String str_le_rel := ⟨str_le_rel_total⟩
  have hnle : ¬ m ≤ 0 := by omega
  have hperm : (sorted_archives entries).Perm (entries.filter is_backup_archive_name) :=
    List.perm_insertionSort str_le_rel _
  have hlen : (sorted_archives entries).length
      = (entries.filter is_backup_archive_name).length := hperm.length_eq
  have hsorted : (sorted_archives entries).Pairwise str_le_rel :=
    List.sorted_insertionSort str_le_rel _
  have hmb : manage_backups (ConfVal.int_val m) entries =
      if m.toNat < (sorted_archives entries).length then
        (sorted_archives entries).take ((sorted_archives entries).length - m.toNat)
      else [] := by
    simp only [manage_backups, prune_with, if_neg hnle, gt_iff_lt]
  have hmem : ∀ f ∈ manage_backups (ConfVal.int_val m) entries,
      f ∈ entries.filter is_backup_archive_name := by
    intro f hf
    rw [hmb] at hf
    split at hf
    · exact hperm.subset (List.take_subset _ _ hf)
    · simp at hf
  refine ⟨fun f hf => (List.mem_filter.mp (hmem f hf)).2,
          fun f hf => (List.mem_filter.mp (hmem f hf)).1, ?_, ?_⟩
  · intro hle
    rw [hmb, if_neg]
    omega
  · intro hgt
    have hcond : m.toNat < (sorted_archives entries).length := by omega
    have hdel : manage_backups (ConfVal.int_val m) entries
        = (sorted_archives entries).take
            ((entries.filter is_backup_archive_name).length - m.toNat) := by
      rw [hmb, if_pos hcond, hlen]
    have hcross := (List.pairwise_append.mp
      (by
        rw [List.take_append_drop
          ((entries.filter is_backup_archive_name).length - m.toNat)
          (sorted_archives entries)]
        exact hsorted)).2.2
    refine ⟨hdel, ?_, ?_, ?_, ?_⟩
    · rw [hdel, List.length_take]
      omega
    · rw [hdel]
      exact hsorted.sublist (List.take_sublist _ _)
    · intro d hd r hr
      rw [hdel] at hd
      exact hcross d hd r hr
    · rw [hdel, List.take_append_drop]
      exact hperm

set_option maxRecDepth 40000 in
/-- Witness for wb_c5_prune_selection at m = 10 on a listing with fifteen
archives and one non-archive file: exactly the five oldest archive names
are selected for deletion and notes.txt is untouched. -/
theorem wb_c5_prune_selection_witness :
    (0 : Int) < 10 ∧ prune_spec sixteen_entries 10 ∧
    manage_backups (ConfVal.int_val 10) sixteen_entries
      = ["world_backup_01.zip", "world_backup_02.zip", "world_backup_03.zip",
         "world_backup_04.zip", "world_backup_05.zip"] ∧
    "notes.txt" ∉ manage_backups (ConfVal.int_val 10) sixteen_entries :=
  ⟨by decide, wb_c5_prune_selection sixteen_entries 10 (by decide),
   by decide, by decide⟩

/-- Claim C6: in a run where every step succeeds and the writing walk
visits exactly the enumerated files, each vanished file adds exactly one
to files_skipped and logs exactly one warning, the run still completes
with the success outcome (a vanish never aborts the operation), and the
files written into the archive number files_total - files_skipped. -/
theorem wb_c6_vanished_files_are_skipped (env : TaskEnv)
    (h1 : env.raise_unexpected = false) (h2 : env.world_dir_exists = true)
    (h3 : env.mkdir_denied = false) (h4 : env.zip_fatal = false)
    (h5 : env.walk2.length = env.total_files) (h6 : 0 < env.total_files) :
    (backup_task env).outcome = TaskOutcome.success ∧
    (backup_task env).final.files_skipped = count_vanished env.walk2 ∧
    (backup_task env).final.warnings_logged = (backup_task env).final.files_skipped ∧
    files_written (backup_task env).final
      = env.total_files - (backup_task env).final.files_skipped := by
  have hne : env.total_files ≠ 0 := by omega
  rw [backup_task_success env h1 h2 h3 h4 hne]
  refine ⟨rfl, ?_, ?_, ?_⟩
  · rw [zip_write_loop_skipped]
    simp [init_write]
  · rw [zip_write_loop_warnings, zip_write_loop_skipped]
    simp [init_write]
  · unfold files_written
    rw [zip_write_loop_processed, zip_write_loop_skipped]
    simp only [init_write]
    omega

/-- Witness for wb_c6_vanished_files_are_skipped: four enumerated files of
which the second vanishes; the run succeeds with files_skipped = 1 and
three files written. -/
theorem wb_c6_vanished_files_are_skipped_witness :
    (skip_env.raise_unexpected = false ∧ skip_env.world_dir_exists = true ∧
     skip_env.mkdir_denied = false ∧ skip_env.zip_fatal = false ∧
     skip_env.walk2.length = skip_env.total_files ∧ 0 < skip_env.total_files) ∧
    ((backup_task skip_env).outcome = TaskOutcome.success ∧
     (backup_task skip_env).final.files_skipped = count_vanished skip_env.walk2 ∧
     (backup_task skip_env).final.warnings_logged
       = (backup_task skip_env).final.files_skipped ∧
     files_written (backup_task skip_env).final
       = skip_env.total_files - (backup_task skip_env).final.files_skipped) :=
  ⟨⟨rfl, rfl, rfl, rfl, rfl, by decide⟩,
   wb_c6_vanished_files_are_skipped skip_env rfl rfl rfl rfl rfl (by decide)⟩

set_option maxRecDepth 10000 in
/-- Claim C7: a progress report is emitted for a visited file exactly when
the recomputed integer percentage reaches the last reported value plus 10
(first conjunct, for every loop state and file), and for a 100-file
archive the reported percentages are 9, 19, ..., 99 - one report per 10%
boundary, approximately 10, 20, ..., 100 - so the callbacks fire 10 <= 11
times and the reported percentages strictly increase, never decreasing. -/
theorem wb_c7_progress_reporting :
    (∀ (total_files : Nat) (st : WriteState) (f : FileFate),
        (process_file total_files st f).reports =
          if (progress_of total_files (st.files_processed + 1) : Int) ≥
              st.last_reported_progress + 10 then
            st.reports ++ [progress_of total_files (st.files_processed + 1)]
          else st.reports) ∧
    (zip_write_loop 100 (List.replicate 100 FileFate.present) init_write).reports
        = [9, 19, 29, 39, 49, 59, 69, 79, 89, 99] ∧
    (zip_write_loop 100 (List.replicate 100 FileFate.present) init_write).reports.length
        ≤ 11 ∧
    List.Pairwise (· < ·)
      (zip_write_loop 100 (List.replicate 100 FileFate.present) init_write).reports := by
  refine ⟨?_, by decide, by decide, by decide⟩
  intro t st f
  unfold process_file
  split <;> rfl

/-- Claim C8: when the source directory exists, the backup directory is
writable and the counting walk finds zero files, the run ends with the
no-files-found outcome before any archive container is opened, so no file
is created on disk and the retention pass is not invoked. -/
theorem wb_c8_empty_source (env : TaskEnv)
    (h1 : env.raise_unexpected = false) (h2 : env.world_dir_exists = true)
    (h3 : env.mkdir_denied = false) (h4 : env.total_files = 0) :
    (backup_task env).outcome = TaskOutcome.no_files_found ∧
    (backup_task env).file_on_disk = none ∧
    (backup_task env).archive_complete = false ∧
    (backup_task env).prune_invoked = false := by
  refine ⟨?_, ?_, ?_, ?_⟩ <;> simp [backup_task, backup_task_try, h1, h2, h3, h4]

/-- Witness for wb_c8_empty_source at a concrete empty-source run. -/
theorem wb_c8_empty_source_witness :
    (empty_env.raise_unexpected = false ∧ empty_env.world_dir_exists = true ∧
     empty_env.mkdir_denied = false ∧ empty_env.total_files = 0) ∧
    ((backup_task empty_env).outcome = TaskOutcome.no_files_found ∧
     (backup_task empty_env).file_on_disk = none ∧
     (backup_task empty_env).archive_complete = false ∧
     (backup_task empty_env).prune_invoked = false) :=
  ⟨⟨rfl, rfl, rfl, rfl⟩, wb_c8_empty_source empty_env rfl rfl rfl rfl⟩

set_option maxRecDepth 10000 in
/-- Claim C9 (refutation at a concrete input): the claim states a
partially written destination file is never treated as a valid archive by
the retention pass.  But the source writes the archive directly under its
final name world_backup_timestamp.zip (lines 164-165, 182), so the file a
fatal write error leaves behind matches the prune filter of line 248: with
limit 1 and one newer archive present, the incomplete leftover is counted
against the limit and selected for deletion as the oldest entry. -/
theorem wb_c9_partial_file_matches_retention :
    (backup_task fatal_env).outcome = TaskOutcome.unhandled_error ∧
    (backup_task fatal_env).archive_complete = false ∧
    (backup_task fatal_env).file_on_disk
      = some "world_backup_2000-01-01_00-00-00.zip" ∧
    is_backup_archive_name "world_backup_2000-01-01_00-00-00.zip" = true ∧
    manage_backups (ConfVal.int_val 1)
        ["world_backup_2000-01-01_00-00-00.zip",
         "world_backup_2001-01-01_00-00-00.zip"]
      = ["world_backup_2000-01-01_00-00-00.zip"] := by
  decide

/-- Claim C9 (amended): a fatal I/O error while writing the archive
container aborts the run through the generic error path without invoking
the retention pass in that run, and leaves the incomplete destination file
on disk under its final world_backup_*.zip name, a name the retention
filter matches - so in later runs the leftover is counted against
max_archives and is eligible for deletion like any archive, rather than
being excluded. -/
theorem wb_c9_partial_file_retention (env : TaskEnv)
    (h1 : env.raise_unexpected = false) (h2 : env.world_dir_exists = true)
    (h3 : env.mkdir_denied = false) (h4 : env.total_files ≠ 0)
    (h5 : env.zip_fatal = true) :
    (backup_task env).outcome = TaskOutcome.unhandled_error ∧
    (backup_task env).prune_invoked = false ∧
    (backup_task env).archive_complete = false ∧
    (backup_task env).file_on_disk = some (backup_file_name env.timestamp) ∧
    is_backup_archive_name (backup_file_name env.timestamp) = true := by
  refine ⟨?_, ?_, ?_, ?_, backup_file_name_matches env.timestamp⟩ <;>
    simp [backup_task, backup_task_try, h1, h2, h3, h4, h5]

/-- Witness for wb_c9_partial_file_retention at the concrete failing
run. -/
theorem wb_c9_partial_file_retention_witness :
    (fatal_env.raise_unexpected = false ∧ fatal_env.world_dir_exists = true ∧
     fatal_env.mkdir_denied = false ∧ fatal_env.total_files ≠ 0 ∧
     fatal_env.zip_fatal = true) ∧
    ((backup_task fatal_env).outcome = TaskOutcome.unhandled_error ∧
     (backup_task fatal_env).prune_invoked = false ∧
     (backup_task fatal_env).archive_complete = false ∧
     (backup_task fatal_env).file_on_disk
       = some (backup_file_name fatal_env.timestamp) ∧
     is_backup_archive_name (backup_file_name fatal_env.timestamp) = true) :=
  ⟨⟨rfl, rfl, rfl, by decide, rfl⟩,
   wb_c9_partial_file_retention fatal_env rfl rfl rfl (by decide) rfl⟩

/-- Claim C10: the two walks of the source tree are independent, so in a
fault-free run whose writing walk visits total_files + k files (k files
became visible only after the counting walk), all of them are processed
and written - files_processed and the written count equal total_files + k,
strictly exceeding the files_total used as the progress denominator - and
the integer progress percentage can exceed 100: with one counted file and
two visited files the reported percentages are 100 and then 200. -/
theorem wb_c10_second_walk_race (env : TaskEnv) (k : Nat)
    (h1 : env.raise_unexpected = false) (h2 : env.world_dir_exists = true)
    (h3 : env.mkdir_denied = false) (h4 : env.zip_fatal = false)
    (h5 : 0 < env.total_files) (h6 : 0 < k)
    (h7 : env.walk2.length = env.total_files + k)
    (h8 : count_vanished env.walk2 = 0) :
    (backup_task env).outcome = TaskOutcome.success ∧
    (backup_task env).final.files_processed = env.total_files + k ∧
    files_written (backup_task env).final = env.total_files + k ∧
    env.total_files < (backup_task env).final.files_processed ∧
    (zip_write_loop 1 [FileFate.present, FileFate.present] init_write).reports
      = [100, 200] := by
  have hne : env.total_files ≠ 0 := by omega
  rw [backup_task_success env h1 h2 h3 h4 hne]
  refine ⟨rfl, ?_, ?_, ?_, by decide⟩
  · rw [zip_write_loop_processed]
    simp only [init_write]
    omega
  · unfold files_written
    rw [zip_write_loop_processed, zip_write_loop_skipped]
    simp only [init_write]
    omega
  · rw [zip_write_loop_processed]
    simp only [init_write]
    omega

/-- Witness for wb_c10_second_walk_race: one counted file, two visited
files. -/
theorem wb_c10_second_walk_race_witness :
    (race_env.raise_unexpected = false ∧ race_env.world_dir_exists = true ∧
     race_env.mkdir_denied = false ∧ race_env.zip_fatal = false ∧
     0 < race_env.total_files ∧ 0 < 1 ∧
     race_env.walk2.length = race_env.total_files + 1 ∧
     count_vanished race_env.walk2 = 0) ∧
    ((backup_task race_env).outcome = TaskOutcome.success ∧
     (backup_task race_env).final.files_processed = race_env.total_files + 1 ∧
     files_written (backup_task race_env).final = race_env.total_files + 1 ∧
     race_env.total_files < (backup_task race_env).final.files_processed ∧
     (zip_write_loop 1 [FileFate.present, FileFate.present] init_write).reports
       = [100, 200]) :=
  ⟨⟨rfl, rfl, rfl, rfl, by decide, by decide, rfl, by decide⟩,
   wb_c10_second_walk_race race_env 1 rfl rfl rfl rfl (by decide) (by decide)
     rfl (by decide)⟩

end WorldBackup
